import Mathlib

/-!
Shallow embedding of the invoice tax-computation core of the
voice-interactive-invoice-generator repository, together with proofs of the
frozen claims about it.

Python `Decimal` values are modelled as rational numbers (`ℚ`); the
`quantize(Decimal('0.01'), rounding=ROUND_HALF_UP)` operation is modelled by
`round2` (round to a multiple of 1/100, ties away from zero, which is what
`ROUND_HALF_UP` means for `Decimal`).  Fallible constructors/functions
(`raise ValueError` in the source) are modelled with `Except String`.
-/

/-- `Decimal.quantize(Decimal('0.01'), rounding=ROUND_HALF_UP)`:
round to 2 decimal places, ties away from zero. -/
def round2 (x : ℚ) : ℚ :=
  if 0 ≤ x then ((⌊x * 100 + 1/2⌋ : ℤ) : ℚ) / 100
  else -(((⌊-x * 100 + 1/2⌋ : ℤ) : ℚ) / 100)

deriving instance DecidableEq for Except

/-- `InvoiceItem` dataclass from
`voice_invoice_framework/voice_invoice/models/invoice.py`. -/
structure InvoiceItem where
  description : String
  hsn_code : String
  quantity : ℚ
  unit_price : ℚ
  unit : String
  gst_rate : ℚ
  discount_percentage : ℚ
  discount_amount : ℚ
deriving DecidableEq

/-- `InvoiceItem.__post_init__`: validation performed at construction time.
Checks, in source order: `quantity <= 0`, `unit_price < 0`,
`gst_rate < 0 or gst_rate > 100`.  (The source performs no check on the
discount fields.) -/
def mkInvoiceItem (description hsn_code : String) (quantity unit_price : ℚ)
    (unit : String) (gst_rate discount_percentage discount_amount : ℚ) :
    Except String InvoiceItem :=
  if quantity ≤ 0 then .error "Quantity must be greater than 0"
  else if unit_price < 0 then .error "Unit price cannot be negative"
  else if gst_rate < 0 ∨ 100 < gst_rate then
    .error "GST rate must be between 0 and 100"
  else .ok ⟨description, hsn_code, quantity, unit_price, unit, gst_rate,
    discount_percentage, discount_amount⟩

/-- `InvoiceItem.gross_amount`. -/
def InvoiceItem.gross_amount (it : InvoiceItem) : ℚ :=
  round2 (it.quantity * it.unit_price)

/-- `InvoiceItem.total_discount`. -/
def InvoiceItem.total_discount (it : InvoiceItem) : ℚ :=
  round2 (round2 (it.gross_amount * it.discount_percentage / 100) + it.discount_amount)

/-- `InvoiceItem.taxable_amount`. -/
def InvoiceItem.taxable_amount (it : InvoiceItem) : ℚ :=
  round2 (it.gross_amount - it.total_discount)

/-- `InvoiceItem.cgst_amount` (`cgst_rate = gst_rate / 2`). -/
def InvoiceItem.cgst_amount (it : InvoiceItem) : ℚ :=
  round2 (it.taxable_amount * (it.gst_rate / 2) / 100)

/-- `InvoiceItem.sgst_amount` (`sgst_rate = gst_rate / 2`). -/
def InvoiceItem.sgst_amount (it : InvoiceItem) : ℚ :=
  round2 (it.taxable_amount * (it.gst_rate / 2) / 100)

/-- `InvoiceItem.igst_amount`. -/
def InvoiceItem.igst_amount (it : InvoiceItem) : ℚ :=
  round2 (it.taxable_amount * it.gst_rate / 100)

/-- `InvoiceItem.total_tax_amount`. -/
def InvoiceItem.total_tax_amount (it : InvoiceItem) : ℚ :=
  round2 (it.cgst_amount + it.sgst_amount)

/-- `InvoiceItem.total_amount`. -/
def InvoiceItem.total_amount (it : InvoiceItem) : ℚ :=
  round2 (it.taxable_amount + it.total_tax_amount)

/-- `GSTType` enum from `services/gst_calculator.py`. -/
inductive GSTType where
  | CGST_SGST
  | IGST
deriving DecidableEq

/-- Result record of `GSTCalculator.calculate_gst_breakdown`. -/
structure GSTBreakdown where
  taxable_amount : ℚ
  gst_rate : ℚ
  cgst_rate : ℚ
  sgst_rate : ℚ
  igst_rate : ℚ
  cgst_amount : ℚ
  sgst_amount : ℚ
  igst_amount : ℚ
  total_tax : ℚ
  total_amount : ℚ
  gst_type : GSTType
deriving DecidableEq

/-- `GSTCalculator.calculate_gst_breakdown`. -/
def calculate_gst_breakdown (taxable_amount gst_rate : ℚ)
    (is_interstate : Bool) : Except String GSTBreakdown :=
  if taxable_amount < 0 then .error "Taxable amount cannot be negative"
  else if gst_rate < 0 ∨ 100 < gst_rate then
    .error "GST rate must be between 0 and 100"
  else if is_interstate then
    let igst := round2 (taxable_amount * gst_rate / 100)
    .ok ⟨taxable_amount, gst_rate, 0, 0, gst_rate, 0, 0, igst, igst,
      round2 (taxable_amount + igst), .IGST⟩
  else
    let half_rate := gst_rate / 2
    let cgst := round2 (taxable_amount * half_rate / 100)
    let sgst := round2 (taxable_amount * half_rate / 100)
    .ok ⟨taxable_amount, gst_rate, half_rate, half_rate, 0, cgst, sgst, 0,
      cgst + sgst, round2 (taxable_amount + (cgst + sgst)), .CGST_SGST⟩

/-- `GSTCalculator.calculate_reverse_gst`. -/
def calculate_reverse_gst (total_amount gst_rate : ℚ)
    (is_interstate : Bool) : Except String GSTBreakdown :=
  if total_amount < 0 then .error "Total amount cannot be negative"
  else
    let divisor := 1 + gst_rate / 100
    let taxable := round2 (total_amount / divisor)
    calculate_gst_breakdown taxable gst_rate is_interstate

/-- The line item of the worked example (claim C2): "Laptop - Dell Inspiron 15",
quantity 1, unit price 65000, GST 18%, discount 5%, no fixed discount. -/
def itemC2 : InvoiceItem :=
  ⟨"Laptop - Dell Inspiron 15", "8471", 1, 65000, "Nos", 18, 5, 0⟩

/-- A rational is a whole number of hundredths (i.e. representable with two
decimal places). -/
def TwoDec (x : ℚ) : Prop := ∃ k : ℤ, x = (k : ℚ) / 100

/-- The over-discounted line item used for claim C4: quantity 1, unit price
100, fixed discount 200 (total discount exceeds the gross amount). -/
def itemC4 : InvoiceItem := ⟨"Overdiscounted", "9999", 1, 100, "Nos", 18, 0, 200⟩

/-- `Company` dataclass from `models/company.py` (fields not used by any
derived computation under verification are omitted). -/
structure Company where
  name : String
  address : String
  city : String
  state : String
  pincode : String
  country : String
  gstin : Option String
deriving DecidableEq

/-- `Customer` dataclass from `models/customer.py` (unused fields omitted). -/
structure Customer where
  name : String
  address : String
  city : String
  state : String
  pincode : String
  country : String
  gstin : Option String
deriving DecidableEq

/-- Python truthiness of an `Optional[str]`: `None` and `""` are falsy. -/
def pyTruthy : Option String → Bool
  | none => false
  | some s => decide (s.data ≠ [])

/-- Python `str.strip()` on the character list. -/
def pyStripChars (l : List Char) : List Char :=
  ((l.dropWhile Char.isWhitespace).reverse.dropWhile Char.isWhitespace).reverse

/-- Python `str.strip()`. -/
def pyStrip (s : String) : String := ⟨pyStripChars s.data⟩

/-- Python `str.upper()` (ASCII; the repository only uses ASCII state names). -/
def pyUpper (s : String) : String := ⟨s.data.map Char.toUpper⟩

/-- The `state_mapping` alias table of `Invoice.is_interstate`, in source
order. -/
def state_mapping : List (String × String) := [
  ("ODISHA", "ODISHA"),
  ("ORISSA", "ODISHA"),
  ("WEST BENGAL", "WESTBENGAL"),
  ("WESTBENGAL", "WESTBENGAL"),
  ("TAMIL NADU", "TAMILNADU"),
  ("TAMILNADU", "TAMILNADU"),
  ("UTTAR PRADESH", "UTTARPRADESH"),
  ("UTTARPRADESH", "UTTARPRADESH"),
  ("MADHYA PRADESH", "MADHYAPRADESH"),
  ("MADHYAPRADESH", "MADHYAPRADESH"),
  ("HIMACHAL PRADESH", "HIMACHALPRADESH"),
  ("HIMACHALPRADESH", "HIMACHALPRADESH"),
  ("ANDHRA PRADESH", "ANDHRAPRADESH"),
  ("ANDHRAPRADESH", "ANDHRAPRADESH"),
  ("JAMMU AND KASHMIR", "JAMMUKASHMIR"),
  ("JAMMUKASHMIR", "JAMMUKASHMIR"),
  ("J&K", "JAMMUKASHMIR")]

/-- `state.strip().upper()` followed by `state_mapping.get(s, s)`. -/
def normalizeState (s : String) : String :=
  let u := pyUpper (pyStrip s)
  (state_mapping.lookup u).getD u

/-- `Invoice` dataclass (fields not used by the derived computations under
verification are omitted). -/
structure Invoice where
  company : Company
  customer : Customer
  items : List InvoiceItem

/-- `Invoice.is_interstate`: when both parties' GSTINs are truthy compare
`gstin[:2]`, otherwise compare normalized state names. -/
def Invoice.is_interstate (inv : Invoice) : Bool :=
  if pyTruthy inv.company.gstin && pyTruthy inv.customer.gstin then
    decide ((inv.company.gstin.getD "").data.take 2 ≠
      (inv.customer.gstin.getD "").data.take 2)
  else
    decide (normalizeState inv.company.state ≠ normalizeState inv.customer.state)

/-- `Invoice.total_taxable_amount`. -/
def Invoice.total_taxable_amount (inv : Invoice) : ℚ :=
  (inv.items.map InvoiceItem.taxable_amount).sum

/-- `Invoice.total_cgst_amount`. -/
def Invoice.total_cgst_amount (inv : Invoice) : ℚ :=
  if inv.is_interstate then 0 else (inv.items.map InvoiceItem.cgst_amount).sum

/-- `Invoice.total_sgst_amount`. -/
def Invoice.total_sgst_amount (inv : Invoice) : ℚ :=
  if inv.is_interstate then 0 else (inv.items.map InvoiceItem.sgst_amount).sum

/-- `Invoice.total_igst_amount`. -/
def Invoice.total_igst_amount (inv : Invoice) : ℚ :=
  if inv.is_interstate then (inv.items.map InvoiceItem.igst_amount).sum else 0

/-- `Invoice.total_tax_amount`. -/
def Invoice.total_tax_amount (inv : Invoice) : ℚ :=
  if inv.is_interstate then inv.total_igst_amount
  else inv.total_cgst_amount + inv.total_sgst_amount

/-- `Invoice.total_invoice_amount`. -/
def Invoice.total_invoice_amount (inv : Invoice) : ℚ :=
  round2 (inv.total_taxable_amount + inv.total_tax_amount)

/-- Claim C1's guard, as the claim states it: both IDs present with valid
15-character length. -/
def hasValid15 : Option String → Bool
  | some g => decide (g.length = 15)
  | none => false

/-- The interstate classifier exactly as claim C1 words it (valid-length
guard, then ID-prefix comparison, otherwise normalized-state comparison). -/
def claimC1Interstate (inv : Invoice) : Bool :=
  if hasValid15 inv.company.gstin && hasValid15 inv.customer.gstin then
    decide ((inv.company.gstin.getD "").data.take 2 ≠
      (inv.customer.gstin.getD "").data.take 2)
  else
    decide (normalizeState inv.company.state ≠ normalizeState inv.customer.state)

/-- Presence of a non-empty tax-registration ID (the amended C1 guard). -/
def hasNonEmptyId : Option String → Bool
  | some g => decide (g ≠ "")
  | none => false

/-- The interstate classifier as the amended claim C1 words it: the guard is
presence of a non-empty ID on both parties (not a valid-length check). -/
def claimC1InterstateAmended (inv : Invoice) : Bool :=
  if hasNonEmptyId inv.company.gstin && hasNonEmptyId inv.customer.gstin then
    decide ((inv.company.gstin.getD "").data.take 2 ≠
      (inv.customer.gstin.getD "").data.take 2)
  else
    decide (normalizeState inv.company.state ≠ normalizeState inv.customer.state)

/-- C1 counterexample invoice: both GSTINs non-empty but shorter than 15
characters, sharing the prefix "27", with different states. -/
def invC1bad : Invoice :=
  ⟨⟨"S", "Addr", "Mumbai", "Maharashtra", "400001", "India", some "27A"⟩,
   ⟨"B", "Addr", "Delhi", "Delhi", "110001", "India", some "27B"⟩, []⟩

/-- C1 example invoice: seller GSTIN "27AABCS1234C1ZS", buyer GSTIN
"07AABCC1234D1ZF" (different state-code prefixes). -/
def invC1inter : Invoice :=
  ⟨⟨"S", "Addr", "Mumbai", "Maharashtra", "400001", "India",
     some "27AABCS1234C1ZS"⟩,
   ⟨"B", "Addr", "Delhi", "Delhi", "110001", "India",
     some "07AABCC1234D1ZF"⟩, []⟩

/-- C1 example invoice: identical two-character GSTIN prefixes. -/
def invC1intra : Invoice :=
  ⟨⟨"S", "Addr", "Mumbai", "Maharashtra", "400001", "India",
     some "27AABCS1234C1ZS"⟩,
   ⟨"B", "Addr", "Pune", "Maharashtra", "411001", "India",
     some "27AABCC1234D1ZF"⟩, []⟩

/-- C10 example: an interstate invoice (different GSTIN prefixes) with one
line item of quantity 1, unit price 1, rate 1%. -/
def invC10 : Invoice :=
  ⟨⟨"S", "Addr", "Mumbai", "Maharashtra", "400001", "India",
     some "27AABCS1234C1ZS"⟩,
   ⟨"B", "Addr", "Delhi", "Delhi", "110001", "India",
     some "07AABCC1234D1ZF"⟩,
   [⟨"Widget", "9999", 1, 1, "Nos", 1, 0, 0⟩]⟩

/-- The `ones` word list of `Invoice._amount_to_words`. -/
def onesWords : List String :=
  ["", "One", "Two", "Three", "Four", "Five", "Six", "Seven", "Eight", "Nine"]

/-- The `teens` word list of `Invoice._amount_to_words`. -/
def teensWords : List String :=
  ["Ten", "Eleven", "Twelve", "Thirteen", "Fourteen", "Fifteen", "Sixteen",
   "Seventeen", "Eighteen", "Nineteen"]

/-- The `tens` word list of `Invoice._amount_to_words`. -/
def tensWords : List String :=
  ["", "", "Twenty", "Thirty", "Forty", "Fifty", "Sixty", "Seventy", "Eighty",
   "Ninety"]

/-- The body of `convert_hundreds` for in-range arguments (`num ≤ 999`):
every list index is then within bounds, so `getD` coincides with the
source's indexing (hundreds index `num / 100 ≤ 9`; teens index
`n1 - 10 ≤ 9` since the branch requires `n1 < 20`; tens index
`n1 / 10 ≤ 9` since `n1 ≤ 99`; ones indices `≤ 9`). -/
def convertHundredsCore (num : ℕ) : String :=
  let r1 := if 100 ≤ num then (onesWords.getD (num / 100) "") ++ " Hundred " else ""
  let n1 := if 100 ≤ num then num % 100 else num
  if 20 ≤ n1 then
    let r2 := r1 ++ (tensWords.getD (n1 / 10) "") ++ " "
    let n2 := n1 % 10
    if 0 < n2 then r2 ++ (onesWords.getD n2 "") ++ " " else r2
  else if 10 ≤ n1 then r1 ++ (teensWords.getD (n1 - 10) "") ++ " "
  else if 0 < n1 then r1 ++ (onesWords.getD n1 "") ++ " "
  else r1

/-- `convert_hundreds` from `Invoice._amount_to_words`.  For `num ≥ 1000`
the source reaches `ones[num // 100]` (the `num >= 100` branch) with index
`num // 100 ≥ 10` and raises `IndexError`, modelled as `none`; for
`num ≤ 999` every index is in range and the body runs to completion. -/
def convertHundreds (num : ℕ) : Option String :=
  if 1000 ≤ num then none else some (convertHundredsCore num)

/-- Python `int()` applied to a `Decimal`: truncation toward zero. -/
def pyInt (x : ℚ) : ℤ := if 0 ≤ x then ⌊x⌋ else -⌊-x⌋

/-- The value of the mutated `rupees` variable after the Crore step of
`Invoice._amount_to_words` (`rupees %= 10000000` inside
`if rupees >= 10000000`). -/
def croreRupees (rupees : ℤ) : ℤ :=
  if 10000000 ≤ rupees then rupees % 10000000 else rupees

/-- The value of the mutated `rupees` variable after the Lakh step. -/
def lakhRupees (rupees : ℤ) : ℤ :=
  if 100000 ≤ croreRupees rupees then croreRupees rupees % 100000
  else croreRupees rupees

/-- The value of the mutated `rupees` variable after the Thousand step. -/
def thousandRupees (rupees : ℤ) : ℤ :=
  if 1000 ≤ lakhRupees rupees then lakhRupees rupees % 1000
  else lakhRupees rupees

/-- The rupee/paise-to-words chain of `Invoice._amount_to_words` (Crore, Lakh,
Thousand groupings, then the remainder, then `"Rupees"`, then the optional
Paise part).  Each `convert_hundreds` call can raise `IndexError`; the
failure is propagated with `Option.bind`/`Option.map`.  `//` and `%` on the
positive divisors used here coincide with `Int./` and `Int.%`. -/
def rupeesPaiseWords (rupees paise : ℤ) : Option String :=
  (if 10000000 ≤ rupees then
      (convertHundreds ((rupees / 10000000).toNat)).map (fun w => w ++ "Crore ")
    else some "").bind (fun s1 =>
  (if 100000 ≤ croreRupees rupees then
      (convertHundreds ((croreRupees rupees / 100000).toNat)).map
        (fun w => s1 ++ (w ++ "Lakh "))
    else some s1).bind (fun s2 =>
  (if 1000 ≤ lakhRupees rupees then
      (convertHundreds ((lakhRupees rupees / 1000).toNat)).map
        (fun w => s2 ++ (w ++ "Thousand "))
    else some s2).bind (fun s3 =>
  (if 0 < thousandRupees rupees then
      (convertHundreds (thousandRupees rupees).toNat).map (fun w => s3 ++ w)
    else some s3).bind (fun s4 =>
  if 0 < paise then
    (convertHundreds paise.toNat).map
      (fun w => (s4 ++ "Rupees") ++ " and " ++ (w ++ "Paise"))
  else some (s4 ++ "Rupees")))))

/-- The body of `Invoice._amount_to_words` before the final
`.strip() + " Only"`, for a non-zero amount (`none` when a
`convert_hundreds` call raises). -/
def amountBody (amount : ℚ) : Option String :=
  rupeesPaiseWords (pyInt amount)
    (pyInt ((amount - ((pyInt amount : ℤ) : ℚ)) * 100))

/-- `Invoice._amount_to_words` (`none` models the `IndexError` escape). -/
def amountToWords (amount : ℚ) : Option String :=
  if amount = 0 then some "Zero Rupees Only"
  else (amountBody amount).map (fun b => pyStrip b ++ " Only")

/-- `gstin.replace(" ", "").upper()`: the normalization `validate_gstin`
applies before checking (spaces removed, ASCII upper-case). -/
def gstinNormalize (s : String) : List Char :=
  (s.data.filter (fun c => c != ' ')).map Char.toUpper

/-- `int(...)` on a string of digit characters. -/
def digitsToNat (l : List Char) : ℕ :=
  l.foldl (fun a c => 10 * a + (c.toNat - 48)) 0

/-- `GSTCalculator.validate_gstin` from `services/gst_calculator.py`,
returning the `(is_valid, error_message)` pair.  Character indexing uses
`getD` with a blank default; every indexed position is guarded by the
15-character length check, exactly as in the source. -/
def validate_gstin (gstin : String) : Bool × Option String :=
  if gstin.data = [] then (false, some "GSTIN cannot be empty")
  else if (gstinNormalize gstin).length ≠ 15 then
    (false, some "GSTIN must be 15 characters long")
  else if ¬ (((gstinNormalize gstin).take 2).all Char.isDigit
      ∧ 1 ≤ digitsToNat ((gstinNormalize gstin).take 2)
      ∧ digitsToNat ((gstinNormalize gstin).take 2) ≤ 37) then
    (false, some "Invalid state code in GSTIN")
  else if ¬ ((((gstinNormalize gstin).drop 2).take 10).length = 10
      ∧ ((((gstinNormalize gstin).drop 2).take 10).take 5).all Char.isAlpha
      ∧ (((((gstinNormalize gstin).drop 2).take 10).drop 5).take 4).all Char.isDigit
      ∧ ((((gstinNormalize gstin).drop 2).take 10).getD 9 ' ').isAlpha) then
    (false, some "Invalid PAN format in GSTIN")
  else if ¬ (((gstinNormalize gstin).getD 12 ' ').isDigit
      ∨ ((gstinNormalize gstin).getD 12 ' ').isAlpha) then
    (false, some "Invalid entity code in GSTIN")
  else if ¬ (((gstinNormalize gstin).getD 13 ' ').isDigit
      ∨ ((gstinNormalize gstin).getD 13 ' ').isAlpha) then
    (false, some "Invalid check digit in GSTIN")
  else if (gstinNormalize gstin).getD 14 ' ' ≠ 'Z' then
    (false, some "Last character of GSTIN must be 'Z'")
  else (true, none)

/-- Acceptance exactly as the amended claim C8 words it, stated on the
normalized (space-stripped, upper-cased) ID: non-empty input, 15 characters,
positions 0-1 digits in [01,37], positions 2-6 letters, 7-10 digits,
11 a letter, 12 and 13 alphanumeric, 14 equal to 'Z'. -/
def claimGstinOk (gstin : String) : Bool :=
  decide (gstin.data ≠ []) &&
  decide ((gstinNormalize gstin).length = 15) &&
  ((gstinNormalize gstin).take 2).all Char.isDigit &&
  decide (1 ≤ digitsToNat ((gstinNormalize gstin).take 2)) &&
  decide (digitsToNat ((gstinNormalize gstin).take 2) ≤ 37) &&
  (((gstinNormalize gstin).drop 2).take 5).all Char.isAlpha &&
  (((gstinNormalize gstin).drop 7).take 4).all Char.isDigit &&
  ((gstinNormalize gstin).getD 11 ' ').isAlpha &&
  (((gstinNormalize gstin).getD 12 ' ').isDigit ||
    ((gstinNormalize gstin).getD 12 ' ').isAlpha) &&
  (((gstinNormalize gstin).getD 13 ' ').isDigit ||
    ((gstinNormalize gstin).getD 13 ' ').isAlpha) &&
  decide ((gstinNormalize gstin).getD 14 ' ' = 'Z')

/-- The seven error messages `validate_gstin` can return, each naming the
segment that failed. -/
def gstinErrorMessages : List String :=
  ["GSTIN cannot be empty", "GSTIN must be 15 characters long",
   "Invalid state code in GSTIN", "Invalid PAN format in GSTIN",
   "Invalid entity code in GSTIN", "Invalid check digit in GSTIN",
   "Last character of GSTIN must be 'Z'"]

/-- Python's substring test `needle in hay` on character lists. -/
def infixOfL (needle : List Char) : List Char → Bool
  | [] => needle.isEmpty
  | c :: rest => needle.isPrefixOf (c :: rest) || infixOfL needle rest

/-- `item_description.lower().strip()` as a character list. -/
def lowerStrip (s : String) : List Char :=
  pyStripChars (s.data.map Char.toLower)

/-- The per-keyword score of `HSNValidator.auto_suggest_hsn`: inside the
guard `keyword in description`, +10 for an exact match else +5, a further +3
when `f' {keyword} '` occurs in `f' {description} '` (whole word), and a
further +2 when the description starts with the keyword. -/
def keywordScore (d k : List Char) : ℕ :=
  if infixOfL k d then
    (if k = d then 10 else 5)
    + (if infixOfL (' ' :: (k ++ [' '])) (' ' :: (d ++ [' '])) then 3 else 0)
    + (if k.isPrefixOf d then 2 else 0)
  else 0

/-- The same per-keyword score as claim C7 words it: +10 if the keyword
equals the description, else +5 if it is a substring, plus +3 if it occurs
as a whole word, plus +2 if the description starts with it. -/
def keywordScoreSpec (d k : List Char) : ℕ :=
  (if k = d then 10 else if infixOfL k d then 5 else 0)
  + (if infixOfL (' ' :: (k ++ [' '])) (' ' :: (d ++ [' '])) then 3 else 0)
  + (if k.isPrefixOf d then 2 else 0)

/-- A code's score: sum of its keywords' scores. -/
def codeScore (d : List Char) (kws : List String) : ℕ :=
  (kws.map (fun k => keywordScore d k.data)).sum

/-- A code's score per the claim's wording. -/
def codeScoreSpec (d : List Char) (kws : List String) : ℕ :=
  (kws.map (fun k => keywordScoreSpec d k.data)).sum

/-- One catalog entry of `HSNValidator.HSN_DATABASE`. -/
structure HsnInfo where
  description : String
  typical_gst : ℚ
  keywords : List String
deriving DecidableEq

/-- `HSNValidator.HSN_DATABASE` in dictionary insertion order.  The source
dict literal lists the key "0713" twice; per Python semantics the entry keeps
its first position and takes the value of the second occurrence. -/
def HSN_DATABASE : List (String × HsnInfo) := [
  ("1001", ⟨"Wheat and meslin", 0, ["wheat", "meslin", "grain"]⟩),
  ("1006", ⟨"Rice", 5, ["rice", "basmati", "paddy"]⟩),
  ("1701", ⟨"Cane or beet sugar", 5, ["sugar", "cane", "beet", "sweetener"]⟩),
  ("1704", ⟨"Sugar confectionery", 18, ["candy", "chocolate", "confectionery", "sweet"]⟩),
  ("0713", ⟨"Dried leguminous vegetables", 0, ["pulse", "dal", "lentil", "chickpea", "gram"]⟩),
  ("0901", ⟨"Coffee", 5, ["coffee", "beans", "instant coffee"]⟩),
  ("0902", ⟨"Tea", 5, ["tea", "chai", "green tea", "black tea"]⟩),
  ("5208", ⟨"Woven fabrics of cotton", 5, ["cotton", "fabric", "cloth", "textile"]⟩),
  ("6109", ⟨"T-shirts, singlets and other vests", 12, ["tshirt", "t-shirt", "shirt", "vest", "singlet", "top", "blouse"]⟩),
  ("6203", ⟨"Men's or boys' suits, ensembles", 12, ["suit", "blazer", "jacket", "trouser", "pant", "formal wear"]⟩),
  ("6204", ⟨"Women's or girls' suits, ensembles", 12, ["dress", "skirt", "kurti", "saree", "ladies wear", "women wear"]⟩),
  ("6115", ⟨"Pantyhose, tights, stockings, socks", 12, ["socks", "stocking", "pantyhose", "hosiery"]⟩),
  ("6402", ⟨"Footwear with outer soles", 18, ["shoes", "sandal", "footwear", "boot", "slipper", "chappal"]⟩),
  ("8471", ⟨"Automatic data processing machines", 18, ["computer", "laptop", "desktop", "pc", "processor", "cpu"]⟩),
  ("8517", ⟨"Telephone sets, mobile phones", 18, ["mobile", "phone", "smartphone", "telephone", "cell phone"]⟩),
  ("8528", ⟨"Monitors and projectors", 18, ["monitor", "screen", "display", "projector", "tv", "television"]⟩),
  ("8504", ⟨"Electrical transformers", 18, ["transformer", "electrical", "power supply", "adapter"]⟩),
  ("8519", ⟨"Sound recording apparatus", 18, ["speaker", "audio", "sound", "music system", "headphone"]⟩),
  ("8473", ⟨"Parts of machines of heading 8471", 18, ["keyboard", "mouse", "computer parts", "accessories"]⟩),
  ("8703", ⟨"Motor cars and other motor vehicles", 28, ["car", "automobile", "vehicle", "sedan", "hatchback"]⟩),
  ("8711", ⟨"Motorcycles", 28, ["motorcycle", "bike", "scooter", "two wheeler"]⟩),
  ("8708", ⟨"Parts and accessories of motor vehicles", 28, ["auto parts", "spare parts", "car parts", "vehicle parts"]⟩),
  ("2915", ⟨"Saturated acyclic monocarboxylic acids", 18, ["chemical", "acid", "industrial chemical"]⟩),
  ("3004", ⟨"Medicaments", 12, ["medicine", "drug", "pharmaceutical", "tablet", "capsule", "syrup"]⟩),
  ("3307", ⟨"Perfumes and cosmetics", 18, ["perfume", "cosmetic", "makeup", "beauty", "cream", "lotion"]⟩),
  ("3401", ⟨"Soap; organic surface-active products", 18, ["soap", "detergent", "shampoo", "cleaning"]⟩),
  ("9401", ⟨"Seats", 18, ["chair", "seat", "sofa", "bench", "stool"]⟩),
  ("9403", ⟨"Other furniture", 18, ["furniture", "table", "desk", "cabinet", "wardrobe", "bed"]⟩),
  ("7013", ⟨"Glassware", 18, ["glass", "glassware", "tumbler", "bottle", "jar"]⟩),
  ("6912", ⟨"Ceramic tableware", 18, ["ceramic", "plate", "cup", "bowl", "pottery"]⟩),
  ("4901", ⟨"Printed books, brochures", 5, ["book", "novel", "textbook", "magazine", "publication"]⟩),
  ("4802", ⟨"Uncoated paper", 12, ["paper", "sheet", "notebook", "copy"]⟩),
  ("9608", ⟨"Ball point pens", 18, ["pen", "pencil", "marker", "stationery"]⟩),
  ("998341", ⟨"Information technology software services", 18, ["software", "development", "programming", "app", "website"]⟩),
  ("998342", ⟨"Information technology consulting services", 18, ["consulting", "it service", "technical", "support"]⟩),
  ("998343", ⟨"Information technology support services", 18, ["support", "maintenance", "repair", "troubleshooting"]⟩),
  ("997213", ⟨"Legal services", 18, ["legal", "lawyer", "attorney", "court", "law"]⟩),
  ("997212", ⟨"Accounting and auditing services", 18, ["accounting", "audit", "tax", "financial", "bookkeeping"]⟩),
  ("996511", ⟨"Transportation of goods by road", 5, ["transport", "delivery", "shipping", "logistics", "courier"]⟩),
  ("997311", ⟨"Architectural services", 18, ["architecture", "design", "planning", "construction design"]⟩),
  ("998313", ⟨"Market research and public opinion polling", 18, ["research", "survey", "marketing", "analysis"]⟩),
  ("7113", ⟨"Articles of jewelry", 3, ["jewelry", "gold", "silver", "ornament", "jewellery"]⟩),
  ("7108", ⟨"Gold", 3, ["gold", "precious metal"]⟩),
  ("9503", ⟨"Toys", 18, ["toy", "game", "doll", "puzzle", "plaything"]⟩),
  ("1207", ⟨"Oil seeds", 5, ["seeds", "oil seeds", "mustard", "sesame"]⟩),
  ("9999", ⟨"General/Other items", 18, ["other", "general", "miscellaneous"]⟩)]

/-- The keyword list of a catalog code. -/
def dbKeywords (code : String) : List String :=
  ((HSN_DATABASE.lookup code).map HsnInfo.keywords).getD []

/-- The best-match result record of `HSNValidator.auto_suggest_hsn`. -/
structure HsnSuggestion where
  hsn_code : String
  description : String
  typical_gst : ℚ
  confidence : ℕ
deriving DecidableEq

/-- `HSNValidator.auto_suggest_hsn`: score every catalog code, keep the
positive scores, and return the highest scorer (the source's stable
descending sort followed by taking the head is modelled by a left fold that
keeps the earliest maximal element) with `confidence = min(score*10, 100)`. -/
def auto_suggest_hsn (item_description : String) : Option HsnSuggestion :=
  if item_description.data = [] then none
  else
    let d := lowerStrip item_description
    match HSN_DATABASE.filterMap (fun ci =>
        if 0 < codeScore d ci.2.keywords
        then some (ci.1, ci.2, codeScore d ci.2.keywords) else none) with
    | [] => none
    | s0 :: rest =>
      let best := rest.foldl (fun a b => if a.2.2 < b.2.2 then b else a) s0
      some ⟨best.1, best.2.1.description, best.2.1.typical_gst,
        min (best.2.2 * 10) 100⟩

lemma round2_floor_bound (x : ℚ) : |((⌊x * 100 + 1/2⌋ : ℤ) : ℚ) / 100 - x| ≤ 1/200 := by
  have h1 : ((⌊x * 100 + 1/2⌋ : ℤ) : ℚ) ≤ x * 100 + 1/2 := Int.floor_le _
  have h2 : x * 100 + 1/2 - 1 < ((⌊x * 100 + 1/2⌋ : ℤ) : ℚ) := Int.sub_one_lt_floor _
  rw [abs_le]
  constructor <;> linarith

lemma abs_round2_sub (x : ℚ) : |round2 x - x| ≤ 1/200 := by
  unfold round2
  split_ifs with h
  · exact round2_floor_bound x
  · have := round2_floor_bound (-x)
    have e : -(((⌊-x * 100 + 1/2⌋ : ℤ) : ℚ) / 100) - x =
        -(((⌊-x * 100 + 1/2⌋ : ℤ) : ℚ) / 100 - -x) := by ring
    rw [e, abs_neg]
    simpa using this

lemma round2_twoDec (x : ℚ) : TwoDec (round2 x) := by
  unfold round2
  split_ifs with h
  · exact ⟨⌊x * 100 + 1/2⌋, rfl⟩
  · exact ⟨-⌊-x * 100 + 1/2⌋, by push_cast; ring⟩

lemma TwoDec.add {x y : ℚ} (hx : TwoDec x) (hy : TwoDec y) : TwoDec (x + y) := by
  obtain ⟨k, rfl⟩ := hx
  obtain ⟨m, rfl⟩ := hy
  exact ⟨k + m, by push_cast; ring⟩

lemma round2_intCast_div (k : ℤ) : round2 ((k : ℚ) / 100) = (k : ℚ) / 100 := by
  unfold round2
  have h1 : (k : ℚ) / 100 * 100 + 1/2 = (k : ℚ) + 1/2 := by ring
  have h2 : -((k : ℚ) / 100) * 100 + 1/2 = ((-k : ℤ) : ℚ) + 1/2 := by push_cast; ring
  rw [h1, h2]
  have f1 : ⌊(k : ℚ) + 1/2⌋ = k := by
    rw [add_comm, Int.floor_add_int]
    norm_num
  have f2 : ⌊((-k : ℤ) : ℚ) + 1/2⌋ = -k := by
    rw [add_comm, Int.floor_add_int]
    norm_num
  rw [f1, f2]
  split_ifs with h
  · rfl
  · push_cast
    ring

lemma round2_eq_self {x : ℚ} (hx : TwoDec x) : round2 x = x := by
  obtain ⟨k, rfl⟩ := hx
  exact round2_intCast_div k

lemma round2_mono {x y : ℚ} (h : x ≤ y) : round2 x ≤ round2 y := by
  unfold round2
  split_ifs with hx hy hy
  · have hfl : ⌊x * 100 + 1/2⌋ ≤ ⌊y * 100 + 1/2⌋ := Int.floor_mono (by linarith)
    have hfl' : ((⌊x * 100 + 1/2⌋ : ℤ) : ℚ) ≤ ((⌊y * 100 + 1/2⌋ : ℤ) : ℚ) := by
      exact_mod_cast hfl
    linarith
  · linarith
  · have hA : (0 : ℤ) ≤ ⌊-x * 100 + 1/2⌋ := by
      apply Int.floor_nonneg.2
      nlinarith [not_le.1 hx]
    have hB : (0 : ℤ) ≤ ⌊y * 100 + 1/2⌋ := by
      apply Int.floor_nonneg.2
      nlinarith
    have hA' : (0 : ℚ) ≤ ((⌊-x * 100 + 1/2⌋ : ℤ) : ℚ) := by exact_mod_cast hA
    have hB' : (0 : ℚ) ≤ ((⌊y * 100 + 1/2⌋ : ℤ) : ℚ) := by exact_mod_cast hB
    have hneg : -(((⌊-x * 100 + 1/2⌋ : ℤ) : ℚ) / 100) ≤ 0 :=
      neg_nonpos.2 (div_nonneg hA' (by norm_num))
    have hpos : (0 : ℚ) ≤ ((⌊y * 100 + 1/2⌋ : ℤ) : ℚ) / 100 :=
      div_nonneg hB' (by norm_num)
    linarith
  · have hfl : ⌊-y * 100 + 1/2⌋ ≤ ⌊-x * 100 + 1/2⌋ := Int.floor_mono (by linarith)
    have hfl' : ((⌊-y * 100 + 1/2⌋ : ℤ) : ℚ) ≤ ((⌊-x * 100 + 1/2⌋ : ℤ) : ℚ) := by
      exact_mod_cast hfl
    have : ((⌊-y * 100 + 1/2⌋ : ℤ) : ℚ) / 100 ≤ ((⌊-x * 100 + 1/2⌋ : ℤ) : ℚ) / 100 := by
      linarith
    linarith

lemma round2_nonneg {x : ℚ} (h : 0 ≤ x) : 0 ≤ round2 x := by
  have := round2_mono h
  rwa [round2_eq_self ⟨0, by norm_num⟩] at this

/-- `round2` of a value within `1/100` of a two-decimal value `t` stays
within `1/100` of `t`. -/
lemma round2_near_twoDec {t d : ℚ} (ht : TwoDec t) (hd : |d| ≤ 1/100) :
    |round2 (t + d) - t| ≤ 1/100 := by
  obtain ⟨k, rfl⟩ := ht
  rw [abs_le] at hd
  have h1 : ((k - 1 : ℤ) : ℚ) / 100 ≤ (k : ℚ) / 100 + d := by push_cast; linarith
  have h2 : (k : ℚ) / 100 + d ≤ ((k + 1 : ℤ) : ℚ) / 100 := by push_cast; linarith
  have m1 := round2_mono h1
  have m2 := round2_mono h2
  rw [round2_intCast_div] at m1 m2
  push_cast at m1 m2
  rw [abs_le]
  constructor <;> linarith

lemma round2_of_nonneg {x : ℚ} (h : 0 ≤ x) :
    round2 x = ((⌊x * 100 + 1/2⌋ : ℤ) : ℚ) / 100 := by
  unfold round2
  rw [if_pos h]

/-- Doubling the rounded half differs from rounding the whole by at most one
hundredth (the integer gap `|2⌊y/2+1/2⌋ - ⌊y+1/2⌋| ≤ 1`). -/
lemma double_half_round_bound {x : ℚ} (hx : 0 ≤ x) :
    |round2 (x/2) + round2 (x/2) - round2 x| ≤ 1/100 := by
  have hx2 : (0 : ℚ) ≤ x/2 := by linarith
  rw [round2_of_nonneg hx2, round2_of_nonneg hx]
  have ha1 : ((⌊x/2 * 100 + 1/2⌋ : ℤ) : ℚ) ≤ x/2 * 100 + 1/2 := Int.floor_le _
  have ha2 : x/2 * 100 + 1/2 - 1 < ((⌊x/2 * 100 + 1/2⌋ : ℤ) : ℚ) := Int.sub_one_lt_floor _
  have hb1 : ((⌊x * 100 + 1/2⌋ : ℤ) : ℚ) ≤ x * 100 + 1/2 := Int.floor_le _
  have hb2 : x * 100 + 1/2 - 1 < ((⌊x * 100 + 1/2⌋ : ℤ) : ℚ) := Int.sub_one_lt_floor _
  have hc1 : ((2 * ⌊x/2 * 100 + 1/2⌋ - ⌊x * 100 + 1/2⌋ : ℤ) : ℚ) < 2 := by
    push_cast
    linarith
  have hc2 : (-2 : ℚ) < ((2 * ⌊x/2 * 100 + 1/2⌋ - ⌊x * 100 + 1/2⌋ : ℤ) : ℚ) := by
    push_cast
    linarith
  have hc1' : 2 * ⌊x/2 * 100 + 1/2⌋ - ⌊x * 100 + 1/2⌋ < 2 := by exact_mod_cast hc1
  have hc2' : -2 < 2 * ⌊x/2 * 100 + 1/2⌋ - ⌊x * 100 + 1/2⌋ := by exact_mod_cast hc2
  have h1 : 2 * ⌊x/2 * 100 + 1/2⌋ - ⌊x * 100 + 1/2⌋ ≤ 1 := by omega
  have h2 : -1 ≤ 2 * ⌊x/2 * 100 + 1/2⌋ - ⌊x * 100 + 1/2⌋ := by omega
  have h1' : ((2 * ⌊x/2 * 100 + 1/2⌋ - ⌊x * 100 + 1/2⌋ : ℤ) : ℚ) ≤ 1 := by exact_mod_cast h1
  have h2' : (-1 : ℚ) ≤ ((2 * ⌊x/2 * 100 + 1/2⌋ - ⌊x * 100 + 1/2⌋ : ℤ) : ℚ) := by
    exact_mod_cast h2
  push_cast at h1' h2'
  rw [abs_le]
  constructor <;> linarith

/-- Evaluation of `calculate_gst_breakdown` in the intrastate, in-range case. -/
lemma breakdown_intra_ok {t r : ℚ} (ht : 0 ≤ t) (hr : 0 ≤ r) (hr' : r ≤ 100) :
    calculate_gst_breakdown t r false = .ok
      ⟨t, r, r/2, r/2, 0, round2 (t * (r/2) / 100), round2 (t * (r/2) / 100), 0,
        round2 (t * (r/2) / 100) + round2 (t * (r/2) / 100),
        round2 (t + (round2 (t * (r/2) / 100) + round2 (t * (r/2) / 100))),
        .CGST_SGST⟩ := by
  have h1 : ¬ t < 0 := not_lt.2 ht
  have h2 : ¬ (r < 0 ∨ 100 < r) := by rintro (h | h) <;> linarith
  unfold calculate_gst_breakdown
  rw [if_neg h1, if_neg h2]
  rfl

/-- Evaluation of `calculate_gst_breakdown` in the interstate, in-range case. -/
lemma breakdown_inter_ok {t r : ℚ} (ht : 0 ≤ t) (hr : 0 ≤ r) (hr' : r ≤ 100) :
    calculate_gst_breakdown t r true = .ok
      ⟨t, r, 0, 0, r, 0, 0, round2 (t * r / 100), round2 (t * r / 100),
        round2 (t + round2 (t * r / 100)), .IGST⟩ := by
  have h1 : ¬ t < 0 := not_lt.2 ht
  have h2 : ¬ (r < 0 ∨ 100 < r) := by rintro (h | h) <;> linarith
  unfold calculate_gst_breakdown
  rw [if_neg h1, if_neg h2]
  rfl

/-- C2: the line item with quantity 1, unit price 65000, 5% discount, no fixed
discount and rate 18% constructs successfully and derives gross 65000.00,
discount 3250.00, taxable 61750.00, CGST = SGST = 5557.50 and total 72865.00. -/
theorem C2_laptop_item_values :
    mkInvoiceItem "Laptop - Dell Inspiron 15" "8471" 1 65000 "Nos" 18 5 0 = .ok itemC2
    ∧ itemC2.gross_amount = 65000
    ∧ itemC2.total_discount = 3250
    ∧ itemC2.taxable_amount = 61750
    ∧ itemC2.cgst_amount = 5557.5
    ∧ itemC2.sgst_amount = 5557.5
    ∧ itemC2.total_amount = 72865 := by
  refine ⟨by decide, ?_, ?_, ?_, ?_, ?_, ?_⟩ <;>
    norm_num [itemC2, InvoiceItem.gross_amount, InvoiceItem.total_discount,
      InvoiceItem.taxable_amount, InvoiceItem.cgst_amount, InvoiceItem.sgst_amount,
      InvoiceItem.total_tax_amount, InvoiceItem.total_amount, round2]

/-- C3 counterexample: at taxable amount 1 and rate 1, the intrastate split has
cgst + sgst = 0.02 (each half rounds 0.005 up to 0.01) while the interstate
IGST is 0.01, so `cgst + sgst = igst` fails as stated. -/
theorem C3_counterexample :
    (calculate_gst_breakdown 1 1 false).map (fun b => b.cgst_amount + b.sgst_amount)
        = .ok (1/50)
    ∧ (calculate_gst_breakdown 1 1 true).map (fun b => b.igst_amount) = .ok (1/100)
    ∧ ((1 : ℚ)/50) ≠ 1/100 := by
  refine ⟨?_, ?_, by norm_num⟩
  · rw [breakdown_intra_ok (by norm_num) (by norm_num) (by norm_num)]
    simp only [Except.map]
    norm_num [round2]
  · rw [breakdown_inter_ok (by norm_num) (by norm_num) (by norm_num)]
    simp only [Except.map]
    norm_num [round2]

/-- C3 (amended): for non-negative taxable `t` and rate `r ∈ [0,100]` the
intrastate split has `cgst = sgst`, and `cgst + sgst` agrees with the IGST of
the interstate split of the same inputs up to one rounding unit (0.01) —
exact equality can fail because each half is rounded separately. -/
theorem C3_split_symmetry :
    ∀ t r : ℚ, 0 ≤ t → 0 ≤ r → r ≤ 100 →
      ∃ bi bo, calculate_gst_breakdown t r false = .ok bi
        ∧ calculate_gst_breakdown t r true = .ok bo
        ∧ bi.cgst_amount = bi.sgst_amount
        ∧ |bi.cgst_amount + bi.sgst_amount - bo.igst_amount| ≤ 1/100 := by
  intro t r ht hr hr'
  refine ⟨_, _, breakdown_intra_ok ht hr hr', breakdown_inter_ok ht hr hr', rfl, ?_⟩
  have hx : (0 : ℚ) ≤ t * r / 100 := by positivity
  have harg : t * (r/2) / 100 = (t * r / 100) / 2 := by ring
  show |round2 (t * (r/2) / 100) + round2 (t * (r/2) / 100) - round2 (t * r / 100)| ≤ 1/100
  rw [harg]
  exact double_half_round_bound hx

/-- Witness for `C3_split_symmetry` at taxable 1, rate 1. -/
theorem C3_split_symmetry_witness :
    (0 : ℚ) ≤ 1 ∧ (0 : ℚ) ≤ 1 ∧ (1 : ℚ) ≤ 100 ∧
    (∃ bi bo, calculate_gst_breakdown 1 1 false = .ok bi
      ∧ calculate_gst_breakdown 1 1 true = .ok bo
      ∧ bi.cgst_amount = bi.sgst_amount
      ∧ |bi.cgst_amount + bi.sgst_amount - bo.igst_amount| ≤ 1/100) :=
  ⟨by norm_num, by norm_num, by norm_num,
    C3_split_symmetry 1 1 (by norm_num) (by norm_num) (by norm_num)⟩

/-- C6: `calculate_gst_breakdown` fails exactly when the taxable amount is
negative or the rate is outside [0,100]; otherwise it returns IGST
`round2(t*r/100)` (interstate, cgst = sgst = 0), CGST = SGST =
`round2(t*r/2/100)` (intrastate), and total amount
`round2(taxable + total tax)`. -/
theorem C6_breakdown_domain :
    ∀ (t r : ℚ) (inter : Bool),
      ((∃ e, calculate_gst_breakdown t r inter = .error e) ↔ t < 0 ∨ r < 0 ∨ 100 < r)
      ∧ (0 ≤ t → 0 ≤ r → r ≤ 100 →
          calculate_gst_breakdown t r inter = .ok
            ⟨t, r, if inter then 0 else r/2, if inter then 0 else r/2,
             if inter then r else 0,
             if inter then 0 else round2 (t * r / 2 / 100),
             if inter then 0 else round2 (t * r / 2 / 100),
             if inter then round2 (t * r / 100) else 0,
             if inter then round2 (t * r / 100)
               else round2 (t * r / 2 / 100) + round2 (t * r / 2 / 100),
             round2 (t + (if inter then round2 (t * r / 100)
               else round2 (t * r / 2 / 100) + round2 (t * r / 2 / 100))),
             if inter then .IGST else .CGST_SGST⟩) := by
  intro t r inter
  constructor
  · constructor
    · rintro ⟨e, he⟩
      by_contra hc
      push_neg at hc
      obtain ⟨h1, h2, h3⟩ := hc
      cases inter
      · rw [breakdown_intra_ok h1 h2 h3] at he
        simp at he
      · rw [breakdown_inter_ok h1 h2 h3] at he
        simp at he
    · intro h
      by_cases ht : t < 0
      · exact ⟨"Taxable amount cannot be negative", by
          unfold calculate_gst_breakdown
          rw [if_pos ht]⟩
      · have hor : r < 0 ∨ 100 < r := by tauto
        exact ⟨"GST rate must be between 0 and 100", by
          unfold calculate_gst_breakdown
          rw [if_neg ht, if_pos hor]⟩
  · intro ht hr hr'
    have e2 : t * (r/2) / 100 = t * r / 2 / 100 := by ring
    cases inter
    · rw [breakdown_intra_ok ht hr hr', e2]
      rfl
    · rw [breakdown_inter_ok ht hr hr']
      rfl

/-- Witness for `C6_breakdown_domain` at t=100, r=18, intrastate (and one
error input). -/
theorem C6_breakdown_domain_witness :
    calculate_gst_breakdown 100 18 false =
      .ok ⟨100, 18, 9, 9, 0, 9, 9, 0, 18, 118, .CGST_SGST⟩
    ∧ (∃ e, calculate_gst_breakdown (-1) 18 false = .error e) := by
  constructor
  · have h := (C6_breakdown_domain 100 18 false).2 (by norm_num) (by norm_num) (by norm_num)
    rw [h]
    norm_num [round2]
  · exact (C6_breakdown_domain (-1) 18 false).1.2 (by norm_num)

/-- C9: for every non-negative two-decimal taxable amount `k/100` and rate
`r ∈ [0,100]`, feeding the intrastate forward total back through
`calculate_reverse_gst` recovers the taxable amount to within 0.01; at
t = 1000, r = 18 the forward total is 1180.00 and the reverse taxable amount
is exactly 1000.00. -/
theorem C9_reverse_round_trip :
    (∀ (k : ℕ) (r : ℚ), 0 ≤ r → r ≤ 100 →
      ∃ bf br, calculate_gst_breakdown ((k : ℚ)/100) r false = .ok bf
        ∧ calculate_reverse_gst bf.total_amount r false = .ok br
        ∧ |br.taxable_amount - (k : ℚ)/100| ≤ 1/100)
    ∧ (∃ bf br, calculate_gst_breakdown 1000 18 false = .ok bf
        ∧ bf.total_amount = 1180
        ∧ calculate_reverse_gst 1180 18 false = .ok br
        ∧ br.taxable_amount = 1000) := by
  constructor
  · intro k r hr hr'
    have ht : (0 : ℚ) ≤ (k : ℚ)/100 := by positivity
    have hfwd := breakdown_intra_ok ht hr hr'
    have htd : TwoDec ((k : ℚ)/100) := ⟨(k : ℤ), by push_cast; ring⟩
    have hqd : TwoDec (round2 ((k : ℚ)/100 * (r/2) / 100)) := round2_twoDec _
    have hq0 : 0 ≤ round2 ((k : ℚ)/100 * (r/2) / 100) :=
      round2_nonneg (by positivity)
    have hsum : TwoDec ((k : ℚ)/100 +
        (round2 ((k : ℚ)/100 * (r/2) / 100) + round2 ((k : ℚ)/100 * (r/2) / 100))) :=
      htd.add (hqd.add hqd)
    have hTA : round2 ((k : ℚ)/100 +
        (round2 ((k : ℚ)/100 * (r/2) / 100) + round2 ((k : ℚ)/100 * (r/2) / 100)))
        = (k : ℚ)/100 +
        (round2 ((k : ℚ)/100 * (r/2) / 100) + round2 ((k : ℚ)/100 * (r/2) / 100)) :=
      round2_eq_self hsum
    set t : ℚ := (k : ℚ)/100 with htdef
    set q : ℚ := round2 (t * (r/2) / 100) with hqdef
    have hT0 : 0 ≤ t + (q + q) := by linarith
    have hr100 : (0 : ℚ) ≤ r/100 := by positivity
    have hdiv : (0 : ℚ) < 1 + r/100 := by linarith
    have hTd0 : 0 ≤ (t + (q + q)) / (1 + r/100) :=
      div_nonneg hT0 (le_of_lt hdiv)
    have hback := breakdown_intra_ok (round2_nonneg hTd0) hr hr'
    have hrev : calculate_reverse_gst (t + (q + q)) r false =
        calculate_gst_breakdown (round2 ((t + (q + q)) / (1 + r/100))) r false := by
      unfold calculate_reverse_gst
      rw [if_neg (not_lt.2 hT0)]
    have hstep : calculate_reverse_gst (round2 (t + (q + q))) r false =
        calculate_gst_breakdown (round2 ((t + (q + q)) / (1 + r/100))) r false := by
      rw [hTA]
      exact hrev
    have hbound : |round2 ((t + (q + q)) / (1 + r/100)) - t| ≤ 1/100 := by
      have hδ : (t + (q + q)) / (1 + r/100) =
          t + (q + q - t * r/100) / (1 + r/100) := by
        field_simp
        ring
      have harg : t * (r/2) / 100 = (t * r/100) / 2 := by ring
      have h1 : |q - (t * r/100)/2| ≤ 1/200 := by
        rw [hqdef, harg]
        exact abs_round2_sub _
      have h2 : |q + q - t * r/100| ≤ 1/100 := by
        have e : q + q - t * r/100 = 2 * (q - (t * r/100)/2) := by ring
        rw [e, abs_mul]
        rw [abs_of_nonneg (by norm_num : (0:ℚ) ≤ 2)]
        linarith
      have h3 : |(q + q - t * r/100) / (1 + r/100)| ≤ 1/100 := by
        rw [abs_div, abs_of_pos hdiv]
        have hd1 : (1 : ℚ) ≤ 1 + r/100 := by linarith
        have := div_le_self (abs_nonneg (q + q - t * r/100)) hd1
        linarith
      rw [hδ]
      exact round2_near_twoDec htd h3
    exact ⟨_, _, hfwd, hstep.trans hback, hbound⟩
  · have e1 := breakdown_intra_ok (show (0:ℚ) ≤ 1000 by norm_num)
      (show (0:ℚ) ≤ 18 by norm_num) (show (18:ℚ) ≤ 100 by norm_num)
    have hq : round2 ((1000 : ℚ) * (18/2) / 100) = 90 := by norm_num [round2]
    have htot : round2 ((1000 : ℚ) + (round2 ((1000 : ℚ) * (18/2) / 100)
        + round2 ((1000 : ℚ) * (18/2) / 100))) = 1180 := by
      rw [hq]
      norm_num [round2]
    have hrtax : round2 ((1180 : ℚ) / (1 + 18/100)) = 1000 := by
      norm_num [round2]
    have hrev : calculate_reverse_gst 1180 18 false =
        calculate_gst_breakdown 1000 18 false := by
      unfold calculate_reverse_gst
      rw [if_neg (by norm_num : ¬ (1180 : ℚ) < 0)]
      show calculate_gst_breakdown (round2 ((1180 : ℚ) / (1 + 18/100))) 18 false = _
      rw [hrtax]
    have e2 := breakdown_intra_ok (show (0:ℚ) ≤ 1000 by norm_num)
      (show (0:ℚ) ≤ 18 by norm_num) (show (18:ℚ) ≤ 100 by norm_num)
    exact ⟨_, _, e1, htot, hrev.trans e2, rfl⟩

/-- Witness for the universal part of `C9_reverse_round_trip` at k=100000
(t=1000.00), r=18. -/
theorem C9_reverse_round_trip_witness :
    (0 : ℚ) ≤ 18 ∧ (18 : ℚ) ≤ 100 ∧
    (∃ bf br, calculate_gst_breakdown (((100000 : ℕ) : ℚ)/100) 18 false = .ok bf
      ∧ calculate_reverse_gst bf.total_amount 18 false = .ok br
      ∧ |br.taxable_amount - ((100000 : ℕ) : ℚ)/100| ≤ 1/100) :=
  ⟨by norm_num, by norm_num,
    C9_reverse_round_trip.1 100000 18 (by norm_num) (by norm_num)⟩

/-- C1 counterexample: with both GSTINs non-empty but not 15 characters long
("27A" and "27B", same two-character prefix) and different states, the code
still compares the ID prefixes and classifies intrastate, while the claim's
valid-length guard would fall through to the state comparison and classify
interstate. -/
theorem C1_counterexample :
    invC1bad.is_interstate = false ∧ claimC1Interstate invC1bad = true := by
  constructor <;> decide

/-- C1 (amended): the guard for comparing tax-ID prefixes is Python
truthiness of both IDs (present and non-empty), not a valid 15-character
length check; under that guard the classifier is exactly the claim's
case-split, and the two worked examples classify as the claim states. -/
theorem C1_interstate_classification :
    (∀ inv : Invoice, inv.is_interstate = claimC1InterstateAmended inv)
    ∧ invC1inter.is_interstate = true
    ∧ invC1intra.is_interstate = false := by
  refine ⟨?_, by decide, by decide⟩
  intro inv
  have h : ∀ o : Option String, pyTruthy o = hasNonEmptyId o := by
    intro o
    cases o with
    | none => rfl
    | some s =>
      unfold pyTruthy hasNonEmptyId
      by_cases hs : s = ""
      · subst hs
        decide
      · have hd : s.data ≠ [] := by
          intro hnil
          exact hs (String.ext (hnil.trans rfl))
        simp [hs, hd]
  unfold Invoice.is_interstate claimC1InterstateAmended
  simp only [h]

/-- C4 counterexample: the item with gross 100 and fixed discount 200
constructs successfully (no error) and carries taxable amount -100 < 0. -/
theorem C4_counterexample :
    mkInvoiceItem "Overdiscounted" "9999" 1 100 "Nos" 18 0 200 = .ok itemC4
    ∧ itemC4.gross_amount = 100
    ∧ itemC4.total_discount = 200
    ∧ itemC4.taxable_amount = -100
    ∧ itemC4.taxable_amount < 0 := by
  refine ⟨by decide, ?_, ?_, ?_, ?_⟩ <;>
    norm_num [itemC4, InvoiceItem.gross_amount, InvoiceItem.total_discount,
      InvoiceItem.taxable_amount, round2]

/-- C4 (amended): construction fails exactly for non-positive quantity,
negative unit price, or rate outside [0,100]; the discount fields are not
validated, so an item whose total discount exceeds its gross amount is
constructed successfully and has a negative taxable amount. -/
theorem C4_construction_domain :
    (∀ (d h u : String) (q p r dp da : ℚ),
      (∃ e, mkInvoiceItem d h q p u r dp da = .error e) ↔
        q ≤ 0 ∨ p < 0 ∨ r < 0 ∨ 100 < r)
    ∧ (∃ it, mkInvoiceItem "Overdiscounted" "9999" 1 100 "Nos" 18 0 200 = .ok it
        ∧ it.taxable_amount < 0) := by
  constructor
  · intro d h u q p r dp da
    constructor
    · rintro ⟨e, he⟩
      by_contra hc
      push_neg at hc
      obtain ⟨h1, h2, h3, h4⟩ := hc
      have hcond : ¬ (r < 0 ∨ 100 < r) := by
        rintro (hh | hh) <;> linarith
      unfold mkInvoiceItem at he
      rw [if_neg (not_le.2 h1), if_neg (not_lt.2 h2), if_neg hcond] at he
      simp at he
    · intro hor
      by_cases h1 : q ≤ 0
      · exact ⟨"Quantity must be greater than 0", by
          unfold mkInvoiceItem
          rw [if_pos h1]⟩
      · by_cases h2 : p < 0
        · exact ⟨"Unit price cannot be negative", by
            unfold mkInvoiceItem
            rw [if_neg h1, if_pos h2]⟩
        · have h3 : r < 0 ∨ 100 < r := by tauto
          exact ⟨"GST rate must be between 0 and 100", by
            unfold mkInvoiceItem
            rw [if_neg h1, if_neg h2, if_pos h3]⟩
  · refine ⟨itemC4, by decide, ?_⟩
    norm_num [itemC4, InvoiceItem.gross_amount, InvoiceItem.total_discount,
      InvoiceItem.taxable_amount, round2]

lemma InvoiceItem.taxable_twoDec (it : InvoiceItem) : TwoDec it.taxable_amount :=
  round2_twoDec _

lemma InvoiceItem.cgst_twoDec (it : InvoiceItem) : TwoDec it.cgst_amount :=
  round2_twoDec _

lemma InvoiceItem.sgst_twoDec (it : InvoiceItem) : TwoDec it.sgst_amount :=
  round2_twoDec _

/-- C10: a line item's own tax and total always use CGST + SGST (never IGST),
and on an interstate invoice the sum of per-item totals can disagree with the
invoice-level total (which uses summed IGST) by rounding units. -/
theorem C10_item_totals :
    (∀ it : InvoiceItem,
        it.total_tax_amount = it.cgst_amount + it.sgst_amount
      ∧ it.total_amount = it.taxable_amount + it.cgst_amount + it.sgst_amount)
    ∧ invC10.is_interstate = true
    ∧ (invC10.items.map InvoiceItem.total_amount).sum ≠ invC10.total_invoice_amount := by
  refine ⟨?_, by decide, ?_⟩
  · intro it
    have h1 : it.total_tax_amount = it.cgst_amount + it.sgst_amount := by
      unfold InvoiceItem.total_tax_amount
      exact round2_eq_self ((it.cgst_twoDec).add (it.sgst_twoDec))
    refine ⟨h1, ?_⟩
    unfold InvoiceItem.total_amount
    rw [h1]
    rw [round2_eq_self ((it.taxable_twoDec).add ((it.cgst_twoDec).add (it.sgst_twoDec)))]
    ring
  · have hinter : invC10.is_interstate = true := by decide
    have hitem : (invC10.items.map InvoiceItem.total_amount).sum = 51/50 := by
      show (InvoiceItem.total_amount ⟨"Widget", "9999", 1, 1, "Nos", 1, 0, 0⟩) + 0 = 51/50
      norm_num [InvoiceItem.total_amount, InvoiceItem.taxable_amount,
        InvoiceItem.total_tax_amount, InvoiceItem.cgst_amount, InvoiceItem.sgst_amount,
        InvoiceItem.total_discount, InvoiceItem.gross_amount, round2]
    have hinv : invC10.total_invoice_amount = 101/100 := by
      unfold Invoice.total_invoice_amount Invoice.total_taxable_amount
        Invoice.total_tax_amount Invoice.total_igst_amount
      rw [hinter]
      show round2 ((InvoiceItem.taxable_amount ⟨"Widget", "9999", 1, 1, "Nos", 1, 0, 0⟩ + 0) +
        (if True then (InvoiceItem.igst_amount ⟨"Widget", "9999", 1, 1, "Nos", 1, 0, 0⟩ + 0) else 0)) = 101/100
      norm_num [InvoiceItem.igst_amount, InvoiceItem.taxable_amount,
        InvoiceItem.total_discount, InvoiceItem.gross_amount, round2]
    rw [hitem, hinv]
    norm_num

set_option maxRecDepth 100000

lemma convertHundreds_of_lt {n : ℕ} (h : n < 1000) :
    convertHundreds n = some (convertHundredsCore n) := by
  unfold convertHundreds
  rw [if_neg (by omega)]

lemma rupeesPaiseWords_some (rupees paise : ℤ) (hr : rupees < 10000000000)
    (hp : paise < 1000) : ∃ b, rupeesPaiseWords rupees paise = some b := by
  have hb1 : croreRupees rupees < 10000000 := by
    unfold croreRupees
    split_ifs <;> omega
  have hb2 : lakhRupees rupees < 100000 := by
    unfold lakhRupees
    split_ifs <;> omega
  have hb3 : thousandRupees rupees < 1000 := by
    unfold thousandRupees
    split_ifs <;> omega
  unfold rupeesPaiseWords
  by_cases h1 : 10000000 ≤ rupees <;>
  by_cases h2 : 100000 ≤ croreRupees rupees <;>
  by_cases h3 : 1000 ≤ lakhRupees rupees <;>
  by_cases h4 : 0 < thousandRupees rupees <;>
  by_cases h5 : 0 < paise <;>
    (simp only [h1, h2, h3, h4, h5, if_true, if_false]
     repeat
       first
         | simp only [Option.some_bind, Option.map_some']
         | rw [convertHundreds_of_lt (by omega)]
     exact ⟨_, rfl⟩)

lemma pyInt_paise_lt (a : ℚ) :
    pyInt ((a - ((pyInt a : ℤ) : ℚ)) * 100) < 100 := by
  by_cases h : 0 ≤ a
  · have hfloor : pyInt a = ⌊a⌋ := by
      unfold pyInt
      rw [if_pos h]
    rw [hfloor]
    have h1 : (0 : ℚ) ≤ a - ((⌊a⌋ : ℤ) : ℚ) := by
      have := Int.floor_le a
      linarith
    have h2 : a - ((⌊a⌋ : ℤ) : ℚ) < 1 := by
      have := Int.lt_floor_add_one a
      linarith
    have hx : (0 : ℚ) ≤ (a - ((⌊a⌋ : ℤ) : ℚ)) * 100 := by nlinarith
    unfold pyInt
    rw [if_pos hx]
    have : (a - ((⌊a⌋ : ℤ) : ℚ)) * 100 < ((100 : ℤ) : ℚ) := by push_cast; nlinarith
    exact Int.floor_lt.2 this
  · have hceil : pyInt a = -⌊-a⌋ := by
      unfold pyInt
      rw [if_neg h]
    rw [hceil]
    have h1 : ((⌊-a⌋ : ℤ) : ℚ) ≤ -a := Int.floor_le (-a)
    have hx : (a - ((-⌊-a⌋ : ℤ) : ℚ)) * 100 ≤ 0 := by
      push_cast
      nlinarith
    by_cases h2 : 0 ≤ (a - ((-⌊-a⌋ : ℤ) : ℚ)) * 100
    · unfold pyInt
      rw [if_pos h2]
      have : (a - ((-⌊-a⌋ : ℤ) : ℚ)) * 100 < ((100 : ℤ) : ℚ) := by push_cast at hx ⊢; linarith
      exact Int.floor_lt.2 this
    · unfold pyInt
      rw [if_neg h2]
      have hnn : (0 : ℤ) ≤ ⌊-((a - ((-⌊-a⌋ : ℤ) : ℚ)) * 100)⌋ := by
        apply Int.floor_nonneg.2
        push_cast at h2 ⊢
        linarith [not_le.1 h2]
      omega

lemma amountToWords_none_of_ge {a : ℚ} (h : 10000000000 ≤ pyInt a) :
    amountToWords a = none := by
  have h0 : a ≠ 0 := by
    rintro rfl
    norm_num [pyInt] at h
  unfold amountToWords
  rw [if_neg h0]
  unfold amountBody rupeesPaiseWords
  rw [if_pos (by omega : (10000000 : ℤ) ≤ pyInt a)]
  have hcr : convertHundreds ((pyInt a / 10000000).toNat) = none := by
    unfold convertHundreds
    rw [if_pos (by omega)]
  rw [hcr]
  simp

lemma amountToWords_some_of_lt {a : ℚ} (h : pyInt a < 10000000000) :
    ∃ s, amountToWords a = some (s ++ "Only") := by
  by_cases h0 : a = 0
  · subst h0
    refine ⟨"Zero Rupees ", ?_⟩
    unfold amountToWords
    rw [if_pos rfl]
    decide
  · have hp : pyInt ((a - ((pyInt a : ℤ) : ℚ)) * 100) < 1000 :=
      lt_trans (pyInt_paise_lt a) (by norm_num)
    obtain ⟨b, hb⟩ := rupeesPaiseWords_some (pyInt a) _ h hp
    refine ⟨pyStrip b ++ " ", ?_⟩
    unfold amountToWords
    rw [if_neg h0]
    unfold amountBody
    rw [hb]
    simp only [Option.map_some']
    rw [String.append_assoc]
    rfl

lemma words_paise_72865 : ∀ p : ℕ, p < 100 → 0 < p →
    (rupeesPaiseWords 72865 (p : ℤ)).map (fun b => pyStrip b ++ " Only") =
      some ("Seventy Two Thousand Eight Hundred Sixty Five Rupees and "
        ++ convertHundredsCore p ++ "Paise Only") := by decide

/-- C5 counterexample: at the grand total 10^10 rupees (1000 crore) the
Crore step calls `convert_hundreds` with crores = 1000, which evaluates
`ones[1000 // 100] = ones[10]` and raises `IndexError`; no words string is
produced at all, so the claim's "for every grand total ... always ends in
'Only'" fails on the program. -/
theorem C5_counterexample :
    amountToWords 10000000000 = none
    ∧ pyInt (10000000000 : ℚ) / 10000000 = 1000
    ∧ convertHundreds 1000 = none := by
  refine ⟨?_, ?_, by decide⟩
  · exact amountToWords_none_of_ge (by norm_num [pyInt])
  · have h1 : pyInt (10000000000 : ℚ) = 10000000000 := by norm_num [pyInt]
    rw [h1]
    decide

/-- C5 (amended): zero renders exactly as "Zero Rupees Only"; 72865.00
renders as the claim states; the Indian Crore/Lakh/Thousand grouping is
shown at 12,34,56,789; every grand total whose rupee part is below 10^10
(1000 crore) produces a rendering that ends in "Only"; for rupee parts of
10^10 and above `convert_hundreds` raises IndexError and no rendering is
produced; non-zero paise appends "and <paise words> Paise". -/
theorem C5_amount_in_words :
    amountToWords 0 = some "Zero Rupees Only"
    ∧ amountToWords 72865 =
        some "Seventy Two Thousand Eight Hundred Sixty Five Rupees Only"
    ∧ amountToWords 123456789 =
        some "Twelve Crore Thirty Four Lakh Fifty Six Thousand Seven Hundred Eighty Nine Rupees Only"
    ∧ (∀ a : ℚ, pyInt a < 10000000000 → ∃ s, amountToWords a = some (s ++ "Only"))
    ∧ (∀ a : ℚ, 10000000000 ≤ pyInt a → amountToWords a = none)
    ∧ (∀ p : ℕ, p < 100 → 0 < p →
        amountToWords (72865 + (p : ℚ)/100) =
          some ("Seventy Two Thousand Eight Hundred Sixty Five Rupees and "
            ++ convertHundredsCore p ++ "Paise Only")) := by
  refine ⟨by simp [amountToWords], ?_, ?_, ?_, ?_, ?_⟩
  · have h1 : pyInt (72865 : ℚ) = 72865 := by norm_num [pyInt]
    have h2 : pyInt (((72865 : ℚ) - ((72865 : ℤ) : ℚ)) * 100) = 0 := by
      norm_num [pyInt]
    unfold amountToWords
    rw [if_neg (by norm_num : ¬ (72865 : ℚ) = 0)]
    unfold amountBody
    rw [h1, h2]
    decide
  · have h1 : pyInt (123456789 : ℚ) = 123456789 := by norm_num [pyInt]
    have h2 : pyInt (((123456789 : ℚ) - ((123456789 : ℤ) : ℚ)) * 100) = 0 := by
      norm_num [pyInt]
    unfold amountToWords
    rw [if_neg (by norm_num : ¬ (123456789 : ℚ) = 0)]
    unfold amountBody
    rw [h1, h2]
    decide
  · intro a ha
    exact amountToWords_some_of_lt ha
  · intro a ha
    exact amountToWords_none_of_ge ha
  · intro p hp hp0
    have hpQ : (0 : ℚ) ≤ (p : ℚ)/100 := by positivity
    have hpQ1 : (p : ℚ)/100 < 1 := by
      rw [div_lt_one (by norm_num : (0:ℚ) < 100)]
      exact_mod_cast hp
    have ha0 : ¬ (72865 + (p : ℚ)/100 = 0) := by
      intro hc
      linarith
    have h1 : pyInt (72865 + (p : ℚ)/100) = 72865 := by
      unfold pyInt
      rw [if_pos (by linarith : (0:ℚ) ≤ 72865 + (p : ℚ)/100)]
      rw [Int.floor_eq_iff]
      constructor
      · push_cast
        linarith
      · push_cast
        linarith
    have h2 : pyInt ((72865 + (p : ℚ)/100 - ((72865 : ℤ) : ℚ)) * 100) = (p : ℤ) := by
      have e : (72865 + (p : ℚ)/100 - ((72865 : ℤ) : ℚ)) * 100 = ((p : ℕ) : ℚ) := by
        push_cast
        ring
      rw [e]
      unfold pyInt
      rw [if_pos (by positivity)]
      exact Int.floor_natCast p
    unfold amountToWords
    rw [if_neg ha0]
    unfold amountBody
    rw [h1, h2]
    exact words_paise_72865 p hp hp0

/-- C8 counterexample: the validator normalizes before checking, so it
accepts the all-lower-case ID "27aabcs1234c1sz" (whose raw position 14 is
'z', not 'Z') and the 16-character ID "27 AABCS1234C1SZ" (length ≠ 15), both
of which the claim as stated would reject. -/
theorem C8_counterexample :
    validate_gstin "27aabcs1234c1sz" = (true, none)
    ∧ "27aabcs1234c1sz".data.getD 14 ' ' ≠ 'Z'
    ∧ "27 AABCS1234C1SZ".length = 16
    ∧ validate_gstin "27 AABCS1234C1SZ" = (true, none) := by
  refine ⟨by decide, by decide, by decide, by decide⟩

set_option maxHeartbeats 2000000

/-- C8 (amended): after removing spaces and upper-casing, `validate_gstin`
accepts exactly the IDs satisfying the claim's positional conditions
(15 characters; positions 0-1 digits in [01,37]; 2-6 letters; 7-10 digits;
11 a letter; 12-13 alphanumeric; 14 = 'Z'; the raw input non-empty), it
returns no message exactly when it accepts, and every returned message is one
of the seven segment-specific errors. -/
theorem C8_taxid_validation :
    (∀ s : String, (validate_gstin s).1 = claimGstinOk s)
    ∧ (∀ s : String, ((validate_gstin s).2 = none ↔ (validate_gstin s).1 = true))
    ∧ (∀ (s : String) (m : String), (validate_gstin s).2 = some m →
        m ∈ gstinErrorMessages) := by
  refine ⟨?_, ?_, ?_⟩
  · intro s
    by_cases h0 : s.data = []
    · simp [validate_gstin, claimGstinOk, h0]
    · by_cases h1 : (gstinNormalize s).length = 15
      · have hplen : (((gstinNormalize s).drop 2).take 10).length = 10 := by
          simp [List.length_take, List.length_drop, h1]
        have e5 : (((gstinNormalize s).drop 2).take 10).take 5 =
            ((gstinNormalize s).drop 2).take 5 := by
          rw [List.take_take]
          norm_num
        have e4 : ((((gstinNormalize s).drop 2).take 10).drop 5).take 4 =
            ((gstinNormalize s).drop 7).take 4 := by
          rw [List.drop_take, List.drop_drop, List.take_take]
          norm_num
        have e9 : (((gstinNormalize s).drop 2).take 10).getD 9 ' ' =
            (gstinNormalize s).getD 11 ' ' := by
          rw [List.getD_eq_getElem?_getD, List.getD_eq_getElem?_getD,
            List.getElem?_take, List.getElem?_drop]
          norm_num
        rw [Bool.eq_iff_iff]
        unfold validate_gstin claimGstinOk
        rw [e5, e4, e9]
        simp only [if_neg h0, hplen]
        split_ifs with hL hS hP hEnt hChk hZ <;>
          simp_all [Bool.and_eq_true, decide_eq_true_eq, not_not]
        intro hA hB hC _ _ _ _ _
        exact absurd (hS hA hB) (not_lt.2 hC)
      · unfold validate_gstin claimGstinOk
        rw [if_neg h0, if_pos h1]
        simp [h0, h1]
  · intro s
    unfold validate_gstin
    split_ifs <;> simp
  · intro s m
    unfold validate_gstin
    split_ifs <;> simp [gstinErrorMessages] <;> (rintro rfl; decide)

lemma infixOfL_iff (n : List Char) : ∀ h : List Char, infixOfL n h = true ↔ n <:+: h := by
  intro h
  induction h with
  | nil =>
    simp [infixOfL, List.isEmpty_iff]
  | cons c rest ih =>
    simp only [infixOfL, Bool.or_eq_true, List.isPrefixOf_iff_prefix, ih,
      List.infix_cons_iff]

lemma infix_of_padded {k d : List Char}
    (h : (' ' :: (k ++ [' '])) <:+: (' ' :: (d ++ [' ']))) : k <:+: d := by
  obtain ⟨s, t, hst⟩ := h
  cases s with
  | nil =>
    rw [List.nil_append, List.cons_append] at hst
    injection hst with h1 h2
    rcases t.eq_nil_or_concat with rfl | ⟨t', c, rfl⟩
    · rw [List.append_nil] at h2
      have h3 := (List.append_inj' h2 rfl).1
      exact h3 ▸ List.infix_rfl
    · rw [List.concat_eq_append] at h2
      have e : (k ++ [' ']) ++ (t' ++ [c]) = ((k ++ [' ']) ++ t') ++ [c] := by
        simp
      rw [e] at h2
      have h3 := (List.append_inj' h2 rfl).1
      refine List.IsPrefix.isInfix ⟨[' '] ++ t', ?_⟩
      rw [← h3]
      simp
  | cons c0 s' =>
    rw [List.cons_append, List.cons_append] at hst
    injection hst with h1 h2
    rcases t.eq_nil_or_concat with rfl | ⟨t', c, rfl⟩
    · rw [List.append_nil] at h2
      have e : s' ++ (' ' :: (k ++ [' '])) = ((s' ++ [' ']) ++ k) ++ [' '] := by
        simp
      rw [e] at h2
      have h3 := (List.append_inj' h2 rfl).1
      exact List.IsSuffix.isInfix ⟨s' ++ [' '], h3⟩
    · rw [List.concat_eq_append] at h2
      have e : s' ++ (' ' :: (k ++ [' '])) ++ (t' ++ [c]) =
          s' ++ [' '] ++ k ++ [' '] ++ t' ++ [c] := by
        simp
      rw [e] at h2
      have h3 := (List.append_inj' h2 rfl).1
      refine ⟨s' ++ [' '], [' '] ++ t', ?_⟩
      rw [← h3]
      simp

lemma keywordScore_eq_spec (d k : List Char) :
    keywordScore d k = keywordScoreSpec d k := by
  unfold keywordScore keywordScoreSpec
  by_cases hin : infixOfL k d = true
  · by_cases he : k = d
    · subst he
      simp [hin]
    · simp [he, hin]
  · have he : k ≠ d := by
      rintro rfl
      exact hin ((infixOfL_iff _ _).2 List.infix_rfl)
    have hw : infixOfL (' ' :: (k ++ [' '])) (' ' :: (d ++ [' '])) ≠ true := by
      intro hcontra
      exact hin ((infixOfL_iff _ _).2 (infix_of_padded ((infixOfL_iff _ _).1 hcontra)))
    have hp : k.isPrefixOf d ≠ true := by
      intro hcontra
      exact hin ((infixOfL_iff _ _).2 (List.isPrefixOf_iff_prefix.1 hcontra).isInfix)
    simp [he, hin, hw, hp]

/-- C7: the per-keyword score of the best-match matcher is exactly the
claim's formula (+10 exact / +5 substring, +3 whole-word, +2 prefix-of-
description), code scores are the keyword sums, and for the description
"laptop" the single best match is code "8471" (score 15, keyword "laptop":
5 + 3 + 2 ... and "top" of 6109 only scores 5) with confidence
min(15*10, 100) = 100 > 0, while the fallback code "9999" scores 0 and is
not even a candidate. -/
theorem C7_hsn_best_match :
    (∀ d k : List Char, keywordScore d k = keywordScoreSpec d k)
    ∧ (∀ (d : List Char) (kws : List String), codeScore d kws = codeScoreSpec d kws)
    ∧ auto_suggest_hsn "laptop" =
        some ⟨"8471", "Automatic data processing machines", 18, 100⟩
    ∧ codeScore (lowerStrip "laptop") (dbKeywords "8471") = 15
    ∧ codeScore (lowerStrip "laptop") (dbKeywords "9999") = 0 := by
  refine ⟨keywordScore_eq_spec, ?_, by decide, by decide, by decide⟩
  intro d kws
  unfold codeScore codeScoreSpec
  simp only [keywordScore_eq_spec]

/-- Witness for the quantified parts of `C5_amount_in_words` at a = 7.25
(rupee part below 1000 crore), a = 10^10 (at the IndexError threshold) and
p = 50. -/
theorem C5_amount_in_words_witness :
    (pyInt (7 + 25/100 : ℚ) < 10000000000
      ∧ (∃ s, amountToWords (7 + 25/100) = some (s ++ "Only")))
    ∧ (10000000000 ≤ pyInt (10000000000 : ℚ)
      ∧ amountToWords 10000000000 = none)
    ∧ ((50 : ℕ) < 100 ∧ 0 < (50 : ℕ) ∧
      amountToWords (72865 + (50 : ℚ)/100) =
        some ("Seventy Two Thousand Eight Hundred Sixty Five Rupees and "
          ++ convertHundredsCore 50 ++ "Paise Only")) :=
  ⟨⟨by norm_num [pyInt], C5_amount_in_words.2.2.2.1 (7 + 25/100) (by norm_num [pyInt])⟩,
   ⟨by norm_num [pyInt], C5_amount_in_words.2.2.2.2.1 10000000000 (by norm_num [pyInt])⟩,
   by norm_num, by norm_num,
   C5_amount_in_words.2.2.2.2.2 50 (by norm_num) (by norm_num)⟩

/-- Witness for `C4_construction_domain` at quantity 0 (a rejected input). -/
theorem C4_construction_domain_witness :
    ((0 : ℚ) ≤ 0 ∨ (1 : ℚ) < 0 ∨ (18 : ℚ) < 0 ∨ (100 : ℚ) < 18) ∧
    (∃ e, mkInvoiceItem "d" "h" 0 1 "u" 18 0 0 = .error e) :=
  ⟨Or.inl le_rfl,
   (C4_construction_domain.1 "d" "h" "u" 0 1 18 0 0).2 (Or.inl le_rfl)⟩

/-- Witness for `C8_taxid_validation` at concrete inputs. -/
theorem C8_taxid_validation_witness :
    ((validate_gstin "27AABCS1234C1SZ").1 = claimGstinOk "27AABCS1234C1SZ")
    ∧ ((validate_gstin "").2 = none ↔ (validate_gstin "").1 = true)
    ∧ "GSTIN cannot be empty" ∈ gstinErrorMessages :=
  ⟨C8_taxid_validation.1 "27AABCS1234C1SZ",
   C8_taxid_validation.2.1 "",
   C8_taxid_validation.2.2 "" "GSTIN cannot be empty" (by decide)⟩
